import Mathlib

/-!
Verification development for the Insta-Bot repository.

Shallow embedding of the engagement core:
- `src/src/bot.py` — ActionStats, daily limits, daily reset, active hours,
  like_post / comment_post (executor outcomes made explicit);
- `src/src/engagement.py` — eligibility filter, per-post engagement,
  hashtag engagement loop, action history;
- `src/src/bot_controller.py` — start/worker interleaving model.

Dates are day numbers (Nat), timestamps are Nat. Network outcomes of the
executor (instagrapi client) are explicit inputs, one per exception class
caught in the source.
-/

namespace InstaBot

/-! ### Configuration (src/src/config.py, defaults from the pydantic models) -/

structure LimitsConfig where
  max_likes_per_day : Nat := 50
  max_comments_per_day : Nat := 20
  max_follows_per_day : Nat := 30
  max_unfollows_per_day : Nat := 30
  min_delay_seconds : Nat := 30
  max_delay_seconds : Nat := 60
  active_hours_start : Nat := 8
  active_hours_end : Nat := 23
deriving DecidableEq

structure SafetyConfig where
  skip_verified : Bool := true
  skip_business : Bool := false
  min_followers : Nat := 100
  max_followers : Nat := 50000
  error_threshold : Nat := 3
  cooldown_minutes : Nat := 60
deriving DecidableEq

def defaultLimits : LimitsConfig := {}

def defaultSafety : SafetyConfig := {}

/-! ### ActionStats (src/src/bot.py lines 28-37) -/

structure ActionStats where
  likes_today : Nat := 0
  comments_today : Nat := 0
  follows_today : Nat := 0
  unfollows_today : Nat := 0
  errors_count : Nat := 0
  last_action_time : Option Nat := none
  last_reset_date : Option Nat := none
deriving DecidableEq

/-- The four action categories of the limits_map in check_daily_limits. -/
inductive ActionCategory where
  | likes
  | comments
  | follows
  | unfollows
deriving DecidableEq

def statCount (s : ActionStats) : ActionCategory → Nat
  | .likes => s.likes_today
  | .comments => s.comments_today
  | .follows => s.follows_today
  | .unfollows => s.unfollows_today

def statLimit (limits : LimitsConfig) : ActionCategory → Nat
  | .likes => limits.max_likes_per_day
  | .comments => limits.max_comments_per_day
  | .follows => limits.max_follows_per_day
  | .unfollows => limits.max_unfollows_per_day

/-- check_daily_limits (src/src/bot.py lines 282-304). With a known category:
current < limit for that category. With no category: all four current < limit. -/
def check_daily_limits (limits : LimitsConfig) (s : ActionStats) :
    Option ActionCategory → Bool
  | some c => decide (statCount s c < statLimit limits c)
  | none =>
      decide (s.likes_today < limits.max_likes_per_day) &&
      decide (s.comments_today < limits.max_comments_per_day) &&
      decide (s.follows_today < limits.max_follows_per_day) &&
      decide (s.unfollows_today < limits.max_unfollows_per_day)

/-- reset_daily_stats (src/src/bot.py lines 357-366): zero the four counters
and the error count, store today as last_reset_date. last_action_time is
not touched by the source. -/
def reset_daily_stats (today : Nat) (s : ActionStats) : ActionStats :=
  { s with
    likes_today := 0
    comments_today := 0
    follows_today := 0
    unfollows_today := 0
    errors_count := 0
    last_reset_date := some today }

/-- check_daily_reset (src/src/bot.py lines 368-378): reset when no stored
date, or when today is strictly after the stored date. -/
def check_daily_reset (today : Nat) (s : ActionStats) : ActionStats :=
  match s.last_reset_date with
  | none => reset_daily_stats today s
  | some last => if last < today then reset_daily_stats today s else s

/-- Bot construction loads persisted stats and then runs the daily-reset
check (src/src/bot.py lines 84-88). This is the only call site of
check_daily_reset in the repository. -/
def bot_init_stats (today : Nat) (loaded : ActionStats) : ActionStats :=
  check_daily_reset today loaded

/-- is_active_hours (src/src/bot.py lines 323-338), as a pure function of
the current hour and the configured window. -/
def is_active_hours (current_hour start_hour end_hour : Nat) : Bool :=
  if start_hour ≤ end_hour then
    decide (start_hour ≤ current_hour ∧ current_hour < end_hour)
  else
    decide (current_hour ≥ start_hour ∨ current_hour < end_hour)

/-! ### Targets (instagrapi media objects as consumed by the source) -/

structure MediaUser where
  username : String
  is_verified : Bool := false
  is_business : Bool := false
  -- getattr(user, 'follower_count', 0) or 0: a missing or null count reads as 0
  follower_count : Option Nat := none
deriving DecidableEq

structure Media where
  pk : Nat
  user : MediaUser
  has_liked : Bool := false
  caption_text : String := ""
deriving DecidableEq

/-- check_post_eligibility (src/src/engagement.py lines 178-227). -/
def check_post_eligibility (safety : SafetyConfig) (m : Media) : Bool :=
  if m.has_liked then false
  else if safety.skip_verified && m.user.is_verified then false
  else if safety.skip_business && m.user.is_business then false
  else if m.user.follower_count.getD 0 < safety.min_followers then false
  else if safety.max_followers < m.user.follower_count.getD 0 then false
  else true

/-! ### Action history (src/src/engagement.py lines 291-333) -/

structure ActionEvent where
  timestamp : Nat
  action : String
  media_id : Nat
  username : String
  comment : String := ""
deriving DecidableEq

/-- track_action (src/src/engagement.py lines 307-321): append, then if the
length exceeds 1000 keep only the last 1000 entries (Python slice -1000:). -/
def track_action (history : List ActionEvent) (e : ActionEvent) : List ActionEvent :=
  let h := history ++ [e]
  if h.length > 1000 then h.drop (h.length - 1000) else h

/-! ### Executor outcomes and paced actions (src/src/bot.py lines 187-280)

One constructor per exception class caught around client.media_like /
client.media_comment; success is the no-exception path. -/

inductive ExecOutcome where
  | success
  | feedbackRequired -- FeedbackRequired: action blocked by the platform
  | pleaseWait -- PleaseWaitFewMinutes: explicit throttle, cooldown sleep
  | otherError -- any other Exception
deriving DecidableEq

/-- like_post (src/src/bot.py lines 187-232). Dry run returns true with no
state change; a quota refusal returns false with no state change; success
increments likes_today and stamps last_action_time; every caught exception
increments errors_count and returns false. -/
def like_post (limits : LimitsConfig) (dry_run : Bool) (now : Nat)
    (outcome : ExecOutcome) (s : ActionStats) : Bool × ActionStats :=
  if dry_run then (true, s)
  else if !(check_daily_limits limits s (some .likes)) then (false, s)
  else
    match outcome with
    | .success =>
        (true, { s with likes_today := s.likes_today + 1, last_action_time := some now })
    | _ => (false, { s with errors_count := s.errors_count + 1 })

/-- comment_post (src/src/bot.py lines 234-280), same shape as like_post
over the comments category. -/
def comment_post (limits : LimitsConfig) (dry_run : Bool) (now : Nat)
    (outcome : ExecOutcome) (s : ActionStats) : Bool × ActionStats :=
  if dry_run then (true, s)
  else if !(check_daily_limits limits s (some .comments)) then (false, s)
  else
    match outcome with
    | .success =>
        (true, { s with comments_today := s.comments_today + 1, last_action_time := some now })
    | _ => (false, { s with errors_count := s.errors_count + 1 })

/-! ### Per-post engagement (src/src/engagement.py lines 119-176) -/

/-- The result dict of engage_with_post. -/
structure EngageResult where
  liked : Bool := false
  commented : Bool := false
  comment_text : String := ""
  error : Bool := false
deriving DecidableEq

/-- Environment for one post: the executor outcome of each action and the
text the comment generator would produce, plus the current timestamp. -/
structure PostEnv where
  likeOutcome : ExecOutcome := .success
  commentOutcome : ExecOutcome := .success
  generatedComment : String := ""
  now : Nat := 0
deriving DecidableEq

def mkLikeEvent (now : Nat) (m : Media) : ActionEvent :=
  { timestamp := now, action := "like", media_id := m.pk, username := m.user.username }

def mkCommentEvent (now : Nat) (m : Media) (text : String) : ActionEvent :=
  { timestamp := now, action := "comment", media_id := m.pk,
    username := m.user.username, comment := text }

/-- engage_with_post (src/src/engagement.py lines 119-176). The like step
runs when requested: success sets liked and tracks the action, failure
sets error. The comment step runs only when commenting is requested AND
result liked is set (source line 153, comment: only comment if like was
successful): success sets commented and the comment text and tracks the
action, failure sets error. -/
def engage_with_post (limits : LimitsConfig) (dry_run : Bool) (m : Media)
    (env : PostEnv) (like_requested comment_requested : Bool)
    (s : ActionStats) (hist : List ActionEvent) :
    EngageResult × ActionStats × List ActionEvent :=
  let r0 : EngageResult := {}
  let likeOut := like_post limits dry_run env.now env.likeOutcome s
  let r1 := if like_requested then
      (if likeOut.1 then { r0 with liked := true } else { r0 with error := true })
    else r0
  let s1 := if like_requested then likeOut.2 else s
  let h1 := if like_requested && likeOut.1 then
      track_action hist (mkLikeEvent env.now m)
    else hist
  let cOut := comment_post limits dry_run env.now env.commentOutcome s1
  if comment_requested && r1.liked then
    (if cOut.1 then
        { r1 with commented := true, comment_text := env.generatedComment }
      else { r1 with error := true },
     cOut.2,
     if cOut.1 then track_action h1 (mkCommentEvent env.now m env.generatedComment) else h1)
  else (r1, s1, h1)

/-! ### Hashtag engagement run (src/src/engagement.py lines 34-117) -/

/-- The per-run stats dict of engage_with_hashtag. -/
structure RunStats where
  posts_processed : Nat := 0
  posts_liked : Nat := 0
  posts_commented : Nat := 0
  posts_skipped : Nat := 0
  errors : Nat := 0
deriving DecidableEq

/-- The per-run stats update after one engaged post
(src/src/engagement.py lines 97-104). -/
def run_record (run : RunStats) (res : EngageResult) : RunStats :=
  { run with
    posts_liked := run.posts_liked + (if res.liked then 1 else 0)
    posts_commented := run.posts_commented + (if res.commented then 1 else 0)
    errors := run.errors + (if res.error then 1 else 0) }

/-- The per-media loop of engage_with_hashtag (src/src/engagement.py lines
76-109): coarse quota check (break), processed counter, eligibility filter
(skip), engage the post, record the result, and break when the engaged
post reported an error and the persistent error count has reached the
configured threshold. -/
def engage_loop (limits : LimitsConfig) (safety : SafetyConfig) (dry_run : Bool)
    (like_posts comment_posts : Bool) :
    List (Media × PostEnv) → ActionStats → List ActionEvent → RunStats →
    RunStats × ActionStats × List ActionEvent
  | [], s, hist, run => (run, s, hist)
  | (m, env) :: rest, s, hist, run =>
    if !(check_daily_limits limits s none) then (run, s, hist)
    else
      let run1 := { run with posts_processed := run.posts_processed + 1 }
      if !(check_post_eligibility safety m) then
        engage_loop limits safety dry_run like_posts comment_posts rest s hist
          { run1 with posts_skipped := run1.posts_skipped + 1 }
      else
        let out := engage_with_post limits dry_run m env like_posts comment_posts s hist
        let run2 := run_record run1 out.1
        if out.1.error && decide (out.2.1.errors_count ≥ safety.error_threshold) then
          (run2, out.2.1, out.2.2)
        else
          engage_loop limits safety dry_run like_posts comment_posts rest out.2.1 out.2.2 run2

/-- engage_with_hashtag (src/src/engagement.py lines 34-117): outside
active hours or with no fetched posts the zero stats are returned,
otherwise the per-media loop runs. The fetched media list (with its
executor outcomes) is an explicit input. -/
def engage_with_hashtag (limits : LimitsConfig) (safety : SafetyConfig)
    (dry_run : Bool) (current_hour : Nat) (medias : List (Media × PostEnv))
    (like_posts comment_posts : Bool) (s : ActionStats) (hist : List ActionEvent) :
    RunStats × ActionStats × List ActionEvent :=
  if !(is_active_hours current_hour limits.active_hours_start limits.active_hours_end) then
    ({}, s, hist)
  else if medias.isEmpty then ({}, s, hist)
  else engage_loop limits safety dry_run like_posts comment_posts medias s hist {}

/-! ### Controller interleaving model (src/src/bot_controller.py)

start_hashtag_engagement / start_campaign (lines 122-169) check
status.state against RUNNING and, if it differs, spawn a worker thread.
The worker body (_run_hashtag_engagement / _run_campaign, lines 293-307
and 384-389) sets status.state to RUNNING as its first statement and back
to IDLE in its finally block (when not ERROR). Between Thread.start() and
the first statement of the body the spawned worker is pending: the state
field still holds its old value. Each event below is one of these atomic
source blocks; stop() (lines 171-179) is included for completeness. -/

inductive BotState where
  | idle
  | running
  | stopping
  | error
deriving DecidableEq

structure CtrlState where
  state : BotState := .idle
  -- worker threads spawned whose body has not started yet
  pending : Nat := 0
  -- worker bodies currently executing
  active : Nat := 0
deriving DecidableEq

inductive CtrlEvent where
  | startRequest -- body of start_hashtag_engagement / start_campaign
  | workerBegin -- first statement of the worker body: state := RUNNING
  | workerFinish -- finally block of the worker body: state := IDLE unless ERROR
  | stopRequest -- stop(): if RUNNING, state := STOPPING and set the flag
deriving DecidableEq

def ctrl_step (s : CtrlState) : CtrlEvent → CtrlState
  | .startRequest =>
      if s.state = .running then s -- refused: bot is already running
      else { s with pending := s.pending + 1 } -- thread spawned
  | .workerBegin =>
      if s.pending > 0 then
        { state := .running, pending := s.pending - 1, active := s.active + 1 }
      else s
  | .workerFinish =>
      if s.active > 0 then
        { state := if s.state = .error then .error else .idle,
          pending := s.pending, active := s.active - 1 }
      else s
  | .stopRequest =>
      if s.state = .running then { s with state := .stopping } else s

/-- Controller state reached from freshly constructed controller state
after a sequence of events. -/
def ctrl_run (evs : List CtrlEvent) : CtrlState :=
  evs.foldl ctrl_step {}

/-! ### Concrete sample data used by witnesses and counterexamples -/

/-- An actor that passes every default eligibility rule. -/
def sampleUser : MediaUser := { username := "alice", follower_count := some 1000 }

def sampleMedia : Media := { pk := 1, user := sampleUser }

/-- A post environment with a chosen like outcome. -/
def envWith (o : ExecOutcome) : PostEnv := { likeOutcome := o, generatedComment := "nice" }

/-- A media whose actor has the given follower count and passes the other rules. -/
def mediaWithFollowers (n : Nat) : Media :=
  { pk := 2, user := { username := "bob", follower_count := some n } }

def sampleEvent : ActionEvent :=
  { timestamp := 0, action := "like", media_id := 1, username := "u" }

/-- Persisted tracker state with 10 likes recorded and yesterday (day 0)
stored as the last reset date. -/
def c2_loaded : ActionStats := { likes_today := 10, last_reset_date := some 0 }

/-- Limits whose daily like maximum is exactly 10. -/
def c2_limits : LimitsConfig := { max_likes_per_day := 10 }

/-- Three eligible targets with chosen like outcomes, followed by arbitrary
further targets. -/
def c4_targets (e1 e2 e3 : ExecOutcome) (rest : List (Media × PostEnv)) :
    List (Media × PostEnv) :=
  (sampleMedia, envWith e1) :: (sampleMedia, envWith e2) :: (sampleMedia, envWith e3) :: rest

/-- Bot stats after two failed likes and one successful like from zero. -/
def c4_afterStats : ActionStats :=
  { likes_today := 1, errors_count := 2, last_action_time := some 0 }

def c4_afterHist : List ActionEvent := [mkLikeEvent 0 sampleMedia]

/-- Run stats after processing two error targets and one liked target. -/
def c4_afterRun : RunStats :=
  { posts_processed := 3, posts_liked := 1, errors := 2 }

/-- Stats that exhaust the default daily like quota. -/
def c10_stats : ActionStats := { likes_today := 50 }

/-! ## Theorems -/

/-- C5: check_daily_limits with a known category returns true iff that
category's current daily count is strictly below its configured maximum
(equivalently, false first exactly when count has reached the maximum);
with no category it returns true iff all four categories simultaneously
have count below maximum. -/
theorem c5_check_daily_limits (limits : LimitsConfig) (s : ActionStats) :
    (∀ c : ActionCategory,
        check_daily_limits limits s (some c) = true ↔ statCount s c < statLimit limits c)
  ∧ (∀ c : ActionCategory,
        check_daily_limits limits s (some c) = false ↔ statLimit limits c ≤ statCount s c)
  ∧ (check_daily_limits limits s none = true ↔
        ∀ c : ActionCategory, statCount s c < statLimit limits c) := by
  refine ⟨fun c => ?_, fun c => ?_, ?_⟩
  · simp [check_daily_limits]
  · simp [check_daily_limits, not_lt]
  · constructor
    · intro h c
      simp only [check_daily_limits, Bool.and_eq_true, decide_eq_true_eq] at h
      cases c <;> simp only [statCount, statLimit] <;> omega
    · intro h
      simp only [check_daily_limits, Bool.and_eq_true, decide_eq_true_eq]
      exact ⟨⟨⟨h .likes, h .comments⟩, h .follows⟩, h .unfollows⟩

/-- C6: the daily reset check is idempotent: applying it twice with the
same current day equals applying it once, so counters are zeroed at most
once per calendar-day transition and a repeated call on the same day is a
no-op on counters, error count and stored reset date. -/
theorem c6_reset_idempotent (today : Nat) (s : ActionStats) :
    check_daily_reset today (check_daily_reset today s) = check_daily_reset today s := by
  unfold check_daily_reset
  cases h : s.last_reset_date with
  | none => simp [reset_daily_stats]
  | some last =>
      by_cases hl : last < today
      · simp [hl, reset_daily_stats]
      · simp [hl, h]

/-- C7: is_active_hours is a pure function of hour, start and end: when
start is at most end it is active exactly on hours in the half-open window
from start to end, and when start exceeds end (wraparound) exactly on
hours at or after start or before end; boundary hours for windows (8,23)
and (22,6) behave as stated. -/
theorem c7_active_hours :
    (∀ hour start_hour end_hour : Nat,
        is_active_hours hour start_hour end_hour = true ↔
          (if start_hour ≤ end_hour then start_hour ≤ hour ∧ hour < end_hour
           else start_hour ≤ hour ∨ hour < end_hour))
  ∧ is_active_hours 8 8 23 = true ∧ is_active_hours 22 8 23 = true
  ∧ is_active_hours 23 8 23 = false
  ∧ is_active_hours 22 22 6 = true ∧ is_active_hours 23 22 6 = true
  ∧ is_active_hours 5 22 6 = true ∧ is_active_hours 6 22 6 = false
  ∧ is_active_hours 7 22 6 = false := by
  refine ⟨fun hour s e => ?_, by decide, by decide, by decide, by decide,
    by decide, by decide, by decide, by decide⟩
  unfold is_active_hours
  split <;> simp

/-- C8: check_post_eligibility rejects a target iff it was already liked,
or the actor is verified while skip_verified is set, or the actor is
business while skip_business is set, or the actor's follower count lies
strictly outside the inclusive range from min_followers to max_followers;
with the default bounds 100 and 50000, counts 99 and 50001 are rejected
while 100 and 50000 are accepted. -/
theorem c8_eligibility :
    (∀ (safety : SafetyConfig) (m : Media),
        check_post_eligibility safety m = false ↔
          (m.has_liked = true
            ∨ (safety.skip_verified = true ∧ m.user.is_verified = true)
            ∨ (safety.skip_business = true ∧ m.user.is_business = true)
            ∨ m.user.follower_count.getD 0 < safety.min_followers
            ∨ safety.max_followers < m.user.follower_count.getD 0))
  ∧ check_post_eligibility defaultSafety (mediaWithFollowers 99) = false
  ∧ check_post_eligibility defaultSafety (mediaWithFollowers 100) = true
  ∧ check_post_eligibility defaultSafety (mediaWithFollowers 50000) = true
  ∧ check_post_eligibility defaultSafety (mediaWithFollowers 50001) = false := by
  refine ⟨fun safety m => ?_, by decide, by decide, by decide, by decide⟩
  unfold check_post_eligibility
  split_ifs with h1 h2 h3 h4 h5 <;> simp_all

/-- C2 counterexample: check_daily_limits performs no reset at all. For a
tracker persisted with 10 likes and yesterday (day 0) as reset date, and a
daily maximum of 10 likes, the claim predicts that a quota check on the
new day zeroes the counter and returns true; the function (which takes no
current-day input and returns only a Bool) returns false. -/
theorem c2_counterexample :
    check_daily_limits c2_limits c2_loaded (some .likes) = false := by decide

/-- C2 amended: the daily reset runs eagerly at bot construction, not
lazily inside check_daily_limits: a bot constructed on a day strictly
after the stored reset date zeroes the like counter during
initialization, and a subsequent quota check with a positive daily
maximum returns true. -/
theorem c2_amended (loaded : ActionStats) (today yday : Nat) (limits : LimitsConfig)
    (hdate : loaded.last_reset_date = some yday) (hnew : yday < today)
    (hpos : 0 < limits.max_likes_per_day) :
    (bot_init_stats today loaded).likes_today = 0
  ∧ check_daily_limits limits (bot_init_stats today loaded) (some .likes) = true := by
  have hreset : bot_init_stats today loaded = reset_daily_stats today loaded := by
    unfold bot_init_stats check_daily_reset
    rw [hdate]
    simp [hnew]
  rw [hreset]
  unfold reset_daily_stats
  refine ⟨rfl, ?_⟩
  simp only [check_daily_limits, statCount, statLimit, decide_eq_true_eq]
  exact hpos

/-- C2 amended, witness: the amended statement at the persisted state with
10 likes and reset day 0, checked on day 1 with the default limits. -/
theorem c2_amended_witness :
    (bot_init_stats 1 c2_loaded).likes_today = 0
  ∧ check_daily_limits defaultLimits (bot_init_stats 1 c2_loaded) (some .likes) = true :=
  c2_amended c2_loaded 1 0 defaultLimits (by decide) (by decide) (by decide)

/-- track_action produces a history of length min (previous + 1) 1000:
on overflow only the entries beyond the newest 1000 are dropped. -/
theorem track_action_length (h : List ActionEvent) (e : ActionEvent) :
    (track_action h e).length = min (h.length + 1) 1000 := by
  simp only [track_action]
  split_ifs with hc <;>
    simp only [List.length_drop, List.length_append, List.length_cons,
      List.length_nil] at hc ⊢ <;>
    omega

/-- C3 counterexample: an append that overflows the 1000-entry cap keeps
the newest 1000 entries rather than discarding the oldest half: from a
full history of 1000 entries, one more track_action leaves 1000 entries,
not at most 501. -/
theorem c3_counterexample :
    (track_action (List.replicate 1000 sampleEvent) sampleEvent).length = 1000
  ∧ ¬(track_action (List.replicate 1000 sampleEvent) sampleEvent).length ≤ 501 := by
  have h : (track_action (List.replicate 1000 sampleEvent) sampleEvent).length = 1000 := by
    rw [track_action_length]
    simp only [List.length_replicate]
    omega
  exact ⟨h, by omega⟩

/-- Folding track_action preserves the 1000-entry bound. -/
theorem track_action_foldl_le (evs : List ActionEvent) :
    ∀ h : List ActionEvent, h.length ≤ 1000 →
      (evs.foldl track_action h).length ≤ 1000 := by
  induction evs with
  | nil => intro h hh; simpa using hh
  | cons e evs ih =>
      intro h hh
      simp only [List.foldl_cons]
      exact ih _ (by rw [track_action_length]; omega)

/-- C3 amended: the action history is bounded at 1000 entries, and an
append that exceeds the cap discards only the oldest entries beyond the
newest 1000 (one entry per overflowing append), not the oldest half; for
every sequence of track_action calls from the empty history the length
never exceeds 1000. -/
theorem c3_amended :
    (∀ (h : List ActionEvent) (e : ActionEvent),
        (track_action h e).length = min (h.length + 1) 1000)
  ∧ (∀ evs : List ActionEvent, (evs.foldl track_action []).length ≤ 1000) :=
  ⟨track_action_length, fun evs => track_action_foldl_le evs [] (by simp)⟩

/-- C1 counterexample: with commenting requested but liking not requested,
engage_with_post does not execute the comment: in dry-run mode (where a
comment call would return true, second conjunct) the result still reports
commented = false, so the comment was never attempted. -/
theorem c1_counterexample :
    (engage_with_post defaultLimits true sampleMedia (envWith .success)
        false true {} []).1.commented = false
  ∧ (comment_post defaultLimits true 0 .success {}).1 = true := by
  exact ⟨rfl, rfl⟩

/-- C1 amended: when commenting is requested, the comment action is
executed only when the like step was both requested and succeeded (source
line 153: only comment if like was successful); in particular a comment is
never executed after a failed like, and with liking not requested no
comment is attempted at all. -/
theorem c1_amended (limits : LimitsConfig) (dry_run : Bool) (m : Media) (env : PostEnv)
    (lr cr : Bool) (s : ActionStats) (hist : List ActionEvent) :
    ((engage_with_post limits dry_run m env lr cr s hist).1.commented = true →
      (engage_with_post limits dry_run m env lr cr s hist).1.liked = true
        ∧ lr = true ∧ cr = true
        ∧ (like_post limits dry_run env.now env.likeOutcome s).1 = true)
  ∧ (lr = false → (engage_with_post limits dry_run m env lr cr s hist).1.commented = false) := by
  cases lr with
  | false => simp [engage_with_post]
  | true =>
      cases cr with
      | false =>
          simp only [engage_with_post]
          refine ⟨by simp; split <;> simp, by simp⟩
      | true =>
          cases hl : (like_post limits dry_run env.now env.likeOutcome s).1 with
          | false => simp [engage_with_post, hl]
          | true =>
              cases hc : (comment_post limits dry_run env.now env.commentOutcome
                  (like_post limits dry_run env.now env.likeOutcome s).2).1 with
              | false => simp [engage_with_post, hl, hc]
              | true => simp [engage_with_post, hl, hc]

/-- C10: when liking is requested and the daily like quota is exhausted,
like_post refuses with false, raising nothing and leaving the stats (in
particular errors_count) unchanged; engage_with_post nevertheless reports
error = true, the comment step is skipped, and the per-run stats update
counts the refusal as one error. -/
theorem c10_quota_refusal (limits : LimitsConfig) (m : Media) (env : PostEnv) (cr : Bool)
    (s : ActionStats) (hist : List ActionEvent)
    (h : limits.max_likes_per_day ≤ s.likes_today) :
    like_post limits false env.now env.likeOutcome s = (false, s)
  ∧ (engage_with_post limits false m env true cr s hist).1.error = true
  ∧ (engage_with_post limits false m env true cr s hist).1.commented = false
  ∧ (engage_with_post limits false m env true cr s hist).2.1 = s
  ∧ (run_record {} (engage_with_post limits false m env true cr s hist).1).errors = 1 := by
  have hq : check_daily_limits limits s (some .likes) = false := by
    simp only [check_daily_limits, statCount, statLimit, decide_eq_false_iff_not, not_lt]
    exact h
  have hl : like_post limits false env.now env.likeOutcome s = (false, s) := by
    simp [like_post, hq]
  refine ⟨hl, ?_, ?_, ?_, ?_⟩ <;> simp [engage_with_post, hl, run_record]

/-- C10 witness: the quota refusal at the default limits with the like
counter at the daily maximum of 50. -/
theorem c10_quota_refusal_witness :
    like_post defaultLimits false 0 .success c10_stats = (false, c10_stats)
  ∧ (engage_with_post defaultLimits false sampleMedia (envWith .success)
        true true c10_stats []).1.error = true
  ∧ (engage_with_post defaultLimits false sampleMedia (envWith .success)
        true true c10_stats []).1.commented = false
  ∧ (engage_with_post defaultLimits false sampleMedia (envWith .success)
        true true c10_stats []).2.1 = c10_stats
  ∧ (run_record {} (engage_with_post defaultLimits false sampleMedia (envWith .success)
        true true c10_stats []).1).errors = 1 :=
  c10_quota_refusal defaultLimits sampleMedia (envWith .success) true c10_stats [] (by decide)

/-- C9 counterexample: the start guard is a plain read of status.state,
which the worker body sets to RUNNING only after it begins; two start
requests interleaved before either worker body runs are both accepted, and
the controller reaches a state with two simultaneously active worker
runs. -/
theorem c9_counterexample :
    (ctrl_run [.startRequest, .startRequest, .workerBegin, .workerBegin]).active = 2 := by
  decide

/-- C9 amended: a start request that observes state RUNNING is refused
without spawning a worker (first and third conjuncts), but the guard is
best-effort, not atomic: the RUNNING mark is set by the worker body after
the spawn, so two start requests arriving before any worker body begins
are both accepted and two active worker runs become reachable (second
conjunct). -/
theorem c9_amended :
    (∀ s : CtrlState, s.state = .running → ctrl_step s .startRequest = s)
  ∧ (ctrl_run [.startRequest, .startRequest, .workerBegin, .workerBegin]).active = 2
  ∧ (ctrl_run [.startRequest, .workerBegin, .startRequest]).pending = 0 := by
  refine ⟨fun s hs => ?_, by decide, by decide⟩
  simp [ctrl_step, hs]

/-- The processed counter of the engagement loop never decreases below its
value at entry. -/
theorem engage_loop_processed_mono (limits : LimitsConfig) (safety : SafetyConfig)
    (dry_run lp cp : Bool) :
    ∀ (l : List (Media × PostEnv)) (s : ActionStats) (hist : List ActionEvent)
      (run : RunStats),
      run.posts_processed ≤
        (engage_loop limits safety dry_run lp cp l s hist run).1.posts_processed := by
  intro l
  induction l with
  | nil => intro s hist run; simp [engage_loop]
  | cons t rest ih =>
      intro s hist run
      obtain ⟨m, env⟩ := t
      simp only [engage_loop]
      split
      · simp
      · split
        · exact le_trans (by simp) (ih ..)
        · split
          · simp [run_record]
          · exact le_trans (by simp [run_record]) (ih ..)

/-- C4: with the default error threshold 3 and the persistent error count
starting at 0, a hashtag run over three eligible targets whose likes fail
with any mix of error subtypes (blocked, throttled, or generic failure)
stops immediately after the third counted error: exactly 3 posts are
processed and 3 errors recorded whatever targets follow, the run output
equals the run over the three targets alone, and the stop is not earlier,
since the same run with the third like succeeding processes at least 3
posts and continues. -/
theorem c4_error_threshold (e1 e2 e3 : ExecOutcome)
    (h1 : e1 ≠ .success) (h2 : e2 ≠ .success) (h3 : e3 ≠ .success)
    (rest : List (Media × PostEnv)) :
    (engage_with_hashtag defaultLimits defaultSafety false 12
        (c4_targets e1 e2 e3 rest) true false {} []).1.posts_processed = 3
  ∧ (engage_with_hashtag defaultLimits defaultSafety false 12
        (c4_targets e1 e2 e3 rest) true false {} []).1.errors = 3
  ∧ (engage_with_hashtag defaultLimits defaultSafety false 12
        (c4_targets e1 e2 e3 rest) true false {} []).2.1.errors_count = 3
  ∧ engage_with_hashtag defaultLimits defaultSafety false 12
        (c4_targets e1 e2 e3 rest) true false {} []
      = engage_with_hashtag defaultLimits defaultSafety false 12
        (c4_targets e1 e2 e3 []) true false {} []
  ∧ 3 ≤ (engage_with_hashtag defaultLimits defaultSafety false 12
        (c4_targets e1 e2 ExecOutcome.success rest) true false {} []).1.posts_processed := by
  have k1 : e1 = .feedbackRequired ∨ e1 = .pleaseWait ∨ e1 = .otherError := by
    cases e1 <;> simp_all
  have k2 : e2 = .feedbackRequired ∨ e2 = .pleaseWait ∨ e2 = .otherError := by
    cases e2 <;> simp_all
  have k3 : e3 = .feedbackRequired ∨ e3 = .pleaseWait ∨ e3 = .otherError := by
    cases e3 <;> simp_all
  rcases k1 with rfl | rfl | rfl <;> rcases k2 with rfl | rfl | rfl <;>
    rcases k3 with rfl | rfl | rfl <;>
    exact ⟨rfl, rfl, rfl, rfl,
      le_trans (by decide)
        (engage_loop_processed_mono defaultLimits defaultSafety false true false
          rest c4_afterStats c4_afterHist c4_afterRun)⟩

/-- C4 witness: the run over one generic failure, one platform block and
one explicit throttle, with no further targets. -/
theorem c4_error_threshold_witness :
    (engage_with_hashtag defaultLimits defaultSafety false 12
        (c4_targets .otherError .feedbackRequired .pleaseWait []) true false {} []).1.posts_processed = 3
  ∧ (engage_with_hashtag defaultLimits defaultSafety false 12
        (c4_targets .otherError .feedbackRequired .pleaseWait []) true false {} []).1.errors = 3
  ∧ (engage_with_hashtag defaultLimits defaultSafety false 12
        (c4_targets .otherError .feedbackRequired .pleaseWait []) true false {} []).2.1.errors_count = 3
  ∧ engage_with_hashtag defaultLimits defaultSafety false 12
        (c4_targets .otherError .feedbackRequired .pleaseWait []) true false {} []
      = engage_with_hashtag defaultLimits defaultSafety false 12
        (c4_targets .otherError .feedbackRequired .pleaseWait []) true false {} []
  ∧ 3 ≤ (engage_with_hashtag defaultLimits defaultSafety false 12
        (c4_targets .otherError .feedbackRequired ExecOutcome.success []) true false {} []).1.posts_processed :=
  c4_error_threshold .otherError .feedbackRequired .pleaseWait
    (by decide) (by decide) (by decide) []

end InstaBot
